import Mathlib

/-!
Verification of the gmail-automation-agent core: a shallow embedding of the
agent pipeline (agents_orchestrator.py), the memory/session stores
(memory_service.py), the metrics collector (logger_config.py) and the
evaluators (agent_evaluator.py), with theorems settling the specification
claims about them.

Python machine floats are modelled as exact rationals, wall-clock instants as
abstract values threaded explicitly (strings for formatted timestamps, integer
seconds where arithmetic on elapsed time matters), Python dicts as
insertion-ordered association lists, and code that can raise as functions into
an explicit error type.
-/

namespace GmailAgent

/-! ### Data model of agents_orchestrator.py -/

/-- Embeds the EmailMessage dataclass: a fetched email. -/
structure EmailMessage where
  id : String
  subject : String
  sender : String
  snippet : String
  body : Option String := none
deriving Repr, DecidableEq

/-- Embeds the SummaryResult dataclass: result of email summarization. -/
structure SummaryResult where
  email_id : String
  summary : String
  suggested_action : String
  confidence : ℚ
  timestamp : String
deriving Repr, DecidableEq

/-- Embeds the ActionResult dataclass: result of executing an action. -/
structure ActionResult where
  email_id : String
  action : String
  status : String
  message : Option String
  timestamp : String
deriving Repr, DecidableEq

/-! ### SummarizerAgent -/

/-- The shape of a successfully JSON-decoded collaborator response, as read by
`summarize_and_suggest` through dict.get with defaults: each field may be
absent. -/
structure ParsedJson where
  summary : Option String := none
  action : Option String := none
  confidence : Option ℚ := none
deriving Repr

/-- Outcome of the call to the summarization collaborator
(openai_client.summarize_emails) as observed by the try/except structure of
SummarizerAgent.summarize_and_suggest: either the call raised, or it returned
text, which json.loads either failed to decode (parsed = none, the
json.JSONDecodeError branch) or decoded into a ParsedJson. -/
inductive LLMOutcome where
  | raised (message : String)
  | returned (text : String) (parsed : Option ParsedJson)

/-- Embeds SummarizerAgent.summarize_and_suggest (agents_orchestrator.py
lines 85-127). The collaborator outcome is passed explicitly; the current
formatted time is threaded as `now`. The function is total: both the
JSONDecodeError branch and the outer except branch produce a SummaryResult,
so no exception propagates. -/
def summarize_and_suggest (email : EmailMessage) (outcome : LLMOutcome)
    (now : String) : SummaryResult :=
  match outcome with
  | .raised _ =>
      { email_id := email.id
        summary := "(summarization failed)"
        suggested_action := "escalate"
        confidence := 0
        timestamp := now }
  | .returned text none =>
      { email_id := email.id
        summary := text
        suggested_action := "escalate"
        confidence := 1/2
        timestamp := now }
  | .returned text (some json) =>
      { email_id := email.id
        summary := json.summary.getD text
        suggested_action := json.action.getD "escalate"
        confidence := json.confidence.getD (1/2)
        timestamp := now }

/-! ### ActionAgent -/

/-- Embeds Python str.lower (ASCII case mapping suffices for the fixed
action vocabulary), written structurally on the character list so that it
evaluates inside the kernel. -/
def strLower (s : String) : String :=
  ⟨s.data.map Char.toLower⟩

/-- Embeds ActionAgent.execute_action (agents_orchestrator.py lines
136-178). When `requires_approval` is true the function returns before the
try block, with the raw (un-normalized) suggested action; the source makes no
call on the Gmail client anywhere in this method (archive is a TODO), so the
embedding is a pure function of the summary, and the except branch of the
source is unreachable for string-typed fields. -/
def execute_action (summary : SummaryResult) (requires_approval : Bool)
    (now : String) : ActionResult :=
  if requires_approval then
    { email_id := summary.email_id
      action := summary.suggested_action
      status := "pending_approval"
      message := some "Awaiting human approval"
      timestamp := now }
  else
    let action := strLower summary.suggested_action
    if action = "archive" then
      { email_id := summary.email_id
        action := action
        status := "success"
        message := some "Archived"
        timestamp := now }
    else if action = "reply" then
      { email_id := summary.email_id
        action := action
        status := "pending_approval"
        message := some "Ready for human reply"
        timestamp := now }
    else
      { email_id := summary.email_id
        action := action
        status := "success"
        message := some "Escalated to human review"
        timestamp := now }

/-! ### EmailFetcherAgent and orchestrator -/

/-- A raw email dict as returned by the Gmail collaborator's
list_unread_emails: every field is read with dict.get and a default. -/
structure RawEmail where
  id : Option String := none
  subject : Option String := none
  sender : Option String := none
  snippet : Option String := none
deriving Repr

/-- The per-item conversion inside EmailFetcherAgent.fetch_emails
(agents_orchestrator.py lines 63-71). -/
def toEmailMessage (e : RawEmail) : EmailMessage :=
  { id := e.id.getD ""
    subject := e.subject.getD "(no subject)"
    sender := e.sender.getD "(unknown)"
    snippet := e.snippet.getD "" }

/-- Embeds EmailFetcherAgent.fetch_emails (agents_orchestrator.py lines
58-76): a raised collaborator exception is absorbed into an empty list. -/
def fetch_emails (outcome : Except String (List RawEmail)) : List EmailMessage :=
  match outcome with
  | .error _ => []
  | .ok es => es.map toEmailMessage

/-- The report dict returned by process_inbox. -/
structure InboxReport where
  total_emails : Nat
  summaries : List SummaryResult
  actions : List ActionResult
  timestamp : String
deriving Repr

/-- Embeds EmailAssistantOrchestrator.process_inbox (agents_orchestrator.py
lines 189-228): fetch, early return on an empty batch, then one summary per
email in order and one action per summary in order. The two sequential
append loops of the source are the two maps. -/
def process_inbox (fetchOutcome : Except String (List RawEmail))
    (llm : EmailMessage → LLMOutcome) (require_approval : Bool)
    (now : String) : InboxReport :=
  let emails := fetch_emails fetchOutcome
  if emails.isEmpty then
    { total_emails := 0, summaries := [], actions := [], timestamp := now }
  else
    let summaries := emails.map (fun e => summarize_and_suggest e (llm e) now)
    let actions := summaries.map (fun s => execute_action s require_approval now)
    { total_emails := emails.length
      summaries := summaries
      actions := actions
      timestamp := now }

/-! ### memory_service.py: sessions and the Memory Bank -/

/-- Embeds the ConversationMessage dataclass. -/
structure ConversationMessage where
  role : String
  content : String
  timestamp : String
deriving Repr, DecidableEq

/-- One session dict as initialized by create_session. Metadata is a
free-form string map. -/
structure Session where
  created_at : String
  last_activity : String
  conversation : List ConversationMessage
  metadata : List (String × String)
deriving Repr, DecidableEq

/-- Embeds InMemorySessionService: the sessions dict, as an
insertion-ordered association list. -/
structure SessionService where
  sessions : List (String × Session)
deriving Repr, DecidableEq

/-- Embeds dict.get on the sessions dict (InMemorySessionService.get_session). -/
def SessionService.lookup (svc : SessionService) (session_id : String) :
    Option Session :=
  (svc.sessions.find? (fun kv => kv.1 == session_id)).map Prod.snd

/-- Embeds InMemorySessionService.create_session (memory_service.py lines
44-53): no-op when the id is already present, otherwise a fresh session with
both timestamps set to now. -/
def SessionService.create_session (svc : SessionService) (session_id : String)
    (now : String) : SessionService :=
  if (svc.lookup session_id).isSome then svc
  else
    { sessions := svc.sessions ++
        [(session_id,
          { created_at := now, last_activity := now
            conversation := [], metadata := [] })] }

/-- The mutation performed by add_message on the found session dict: append
to the conversation list, touch nothing else. -/
def appendMessage (message : ConversationMessage) (s : Session) : Session :=
  { s with conversation := s.conversation ++ [message] }

/-- Embeds InMemorySessionService.add_message (memory_service.py lines
66-69): guarded by dict membership; appends to the conversation list of the
matching session and touches nothing else (in particular not last_activity). -/
def SessionService.add_message (svc : SessionService) (session_id : String)
    (message : ConversationMessage) : SessionService :=
  if (svc.lookup session_id).isSome then
    { sessions := svc.sessions.map (fun kv =>
        if kv.1 = session_id then (kv.1, appendMessage message kv.2) else kv) }
  else svc

/-- Embeds the MemoryEntry dataclass. The stored value type is a parameter
(the source stores arbitrary Python values); the creation instant is integer
seconds so that elapsed time is arithmetic. -/
structure MemoryEntry (α : Type) where
  key : String
  value : α
  timestamp : Int
  ttl_seconds : Option Int
deriving Repr, DecidableEq

/-- Embeds MemoryBank: the memory dict, insertion-ordered. -/
structure MemoryBank (α : Type) where
  memory : List (String × MemoryEntry α)
deriving Repr, DecidableEq

/-- Embeds dict.get on the memory dict. -/
def MemoryBank.lookup (bank : MemoryBank α) (key : String) :
    Option (MemoryEntry α) :=
  (bank.memory.find? (fun kv => kv.1 == key)).map Prod.snd

/-- Embeds MemoryBank.store (memory_service.py lines 89-98): an
unconditional upsert. A pre-existing key keeps its dict position (CPython
dict semantics); a new key is appended. -/
def MemoryBank.store (bank : MemoryBank α) (key : String) (value : α)
    (now : Int) (ttl_seconds : Option Int) : MemoryBank α :=
  let entry : MemoryEntry α :=
    { key := key, value := value, timestamp := now, ttl_seconds := ttl_seconds }
  if (bank.lookup key).isSome then
    { memory := bank.memory.map (fun kv =>
        if kv.1 = key then (key, entry) else kv) }
  else
    { memory := bank.memory ++ [(key, entry)] }

/-- Embeds the del statement on the memory dict (and MemoryBank.delete). -/
def MemoryBank.delete (bank : MemoryBank α) (key : String) : MemoryBank α :=
  { memory := bank.memory.filter (fun kv => kv.1 != key) }

/-- Python truthiness of the Optional[int] field ttl_seconds, as tested by
the line `if entry.ttl_seconds:` in MemoryBank.retrieve: None and 0 are
falsy, every other integer is truthy. -/
def ttlTruthy (ttl : Option Int) : Bool :=
  match ttl with
  | none => false
  | some t => t != 0

/-- Embeds MemoryBank.retrieve (memory_service.py lines 100-113). The read
can delete the entry, so the post-state is returned alongside the value.
`now` is the current instant in seconds; elapsed time is `now - stored`. -/
def MemoryBank.retrieve (bank : MemoryBank α) (key : String) (now : Int) :
    Option α × MemoryBank α :=
  match bank.lookup key with
  | some entry =>
      if ttlTruthy entry.ttl_seconds then
        if now - entry.timestamp > entry.ttl_seconds.getD 0 then
          (none, bank.delete key)
        else
          (some entry.value, bank)
      else
        (some entry.value, bank)
  | none => (none, bank)

/-- Embeds MemoryBank.list_keys (memory_service.py lines 115-117). -/
def MemoryBank.list_keys (bank : MemoryBank α) : List String :=
  bank.memory.map Prod.fst

/-! ### logger_config.py: MetricsCollector -/

/-- The fixed metrics schema initialized by MetricsCollector. -/
structure Metrics where
  total_emails_processed : Nat
  total_summaries_generated : Nat
  total_actions_executed : Nat
  avg_response_time_ms : ℚ
  success_count : Nat
  error_count : Nat
  pending_approval_count : Nat
deriving Repr, DecidableEq

/-- The freshly constructed MetricsCollector state: every counter zero. -/
def initialMetrics : Metrics :=
  { total_emails_processed := 0
    total_summaries_generated := 0
    total_actions_executed := 0
    avg_response_time_ms := 0
    success_count := 0
    error_count := 0
    pending_approval_count := 0 }

/-- Embeds MetricsCollector.record_email_processed. -/
def record_email_processed (m : Metrics) : Metrics :=
  { m with total_emails_processed := m.total_emails_processed + 1 }

/-- Embeds MetricsCollector.record_response_time (logger_config.py lines
85-89): total = avg * (n - 1); avg := (total + time_ms) / n, with n the
current total_emails_processed counter. In Python the division raises
ZeroDivisionError when the counter is 0, which the embedding returns as an
explicit error. -/
def record_response_time (m : Metrics) (time_ms : ℚ) : Except String Metrics :=
  if m.total_emails_processed = 0 then
    .error "ZeroDivisionError: float division by zero"
  else
    let total := m.avg_response_time_ms * ((m.total_emails_processed : ℚ) - 1)
    .ok { m with
          avg_response_time_ms :=
            (total + time_ms) / (m.total_emails_processed : ℚ) }

/-! ### agent_evaluator.py: SummarizerEvaluator -/

/-- One recorded prediction (SummarizerEvaluator.add_prediction). -/
structure Prediction where
  email_id : String
  summary : String
  action : String
  confidence : ℚ
deriving Repr, DecidableEq

/-- One ground-truth label (SummarizerEvaluator.add_ground_truth). -/
structure GroundTruthLabel where
  email_id : String
  true_action : String
deriving Repr, DecidableEq

/-- The AgentEvalMetrics dataclass. -/
structure AgentEvalMetrics where
  total_predictions : Nat
  correct_predictions : Nat
  «precision» : ℚ
  «recall» : ℚ
  f1_score : ℚ
  accuracy : ℚ
  avg_confidence : ℚ
deriving Repr, DecidableEq

/-- The truth_map dict comprehension in evaluate_actions (agent_evaluator.py
line 61): later ground-truth entries for the same id overwrite earlier ones. -/
def truth_map (gts : List GroundTruthLabel) : String → Option String :=
  gts.foldl
    (fun m gt => fun k => if k = gt.email_id then some gt.true_action else m k)
    (fun _ => none)

/-- One iteration of the evaluation loop in evaluate_actions
(agent_evaluator.py lines 67-72), accumulating (correct, total_confidence):
a prediction without a ground-truth id contributes to neither. -/
def evalStep (tm : String → Option String) (acc : Nat × ℚ) (p : Prediction) :
    Nat × ℚ :=
  match tm p.email_id with
  | some ta =>
      (if strLower p.action = strLower ta then acc.1 + 1 else acc.1,
       acc.2 + p.confidence)
  | none => acc

/-- Embeds SummarizerEvaluator.evaluate_actions (agent_evaluator.py lines
56-79), over the recorded prediction and ground-truth lists. Precision,
recall and f1 keep their dataclass defaults of 0, as in the source. -/
def evaluate_actions (preds : List Prediction) (gts : List GroundTruthLabel) :
    AgentEvalMetrics :=
  let tm := truth_map gts
  let total := preds.length
  let loop := preds.foldl (evalStep tm) (0, 0)
  { total_predictions := total
    correct_predictions := loop.1
    «precision» := 0
    «recall» := 0
    f1_score := 0
    accuracy := if total > 0 then (loop.1 : ℚ) / (total : ℚ) else 0
    avg_confidence := if total > 0 then loop.2 / (total : ℚ) else 0 }

/-- Whether a prediction counts as correct in evaluate_actions: it has a
ground-truth entry for its id and the actions agree case-insensitively. -/
def matchHit (tm : String → Option String) (p : Prediction) : Bool :=
  match tm p.email_id with
  | some ta => strLower p.action == strLower ta
  | none => false

/-- The confidence mass accumulated by the loop: the confidences of exactly
those predictions that have a matching ground-truth id. -/
def matchedConfidenceSum (tm : String → Option String)
    (preds : List Prediction) : ℚ :=
  ((preds.filter (fun p => (tm p.email_id).isSome)).map
    Prediction.confidence).sum

/-! ### Theorems for the claims -/

/-- Claim C1: whenever execute_action runs with requires_approval = true, the
returned ActionResult has status "pending_approval", regardless of the
suggested action; the source returns at that point without reaching the
dispatch block, so no call on the external executor is made (the embedding
is executor-free exactly because the source method never touches the Gmail
client). The full result record is pinned down. -/
theorem C1_approval_always_pending (s : SummaryResult) (now : String) :
    (execute_action s true now).status = "pending_approval" ∧
    execute_action s true now =
      { email_id := s.email_id
        action := s.suggested_action
        status := "pending_approval"
        message := some "Awaiting human approval"
        timestamp := now } :=
  ⟨rfl, rfl⟩

/-- Claim C2: with requires_approval = false, dispatch is on the lower-cased
suggested action: "archive" yields status "success" (the source attempts no
side-effect call — archive is a TODO — so the raising branch never fires and
success is unconditional); "reply" always yields "pending_approval"; any
other value yields "success" with the human-escalation message. -/
theorem C2_no_approval_dispatch (s : SummaryResult) (now : String) :
    (strLower s.suggested_action = "archive" →
      (execute_action s false now).status = "success" ∧
      (execute_action s false now).message = some "Archived") ∧
    (strLower s.suggested_action = "reply" →
      (execute_action s false now).status = "pending_approval" ∧
      (execute_action s false now).message = some "Ready for human reply") ∧
    (strLower s.suggested_action ≠ "archive" →
      strLower s.suggested_action ≠ "reply" →
      (execute_action s false now).status = "success" ∧
      (execute_action s false now).message =
        some "Escalated to human review") := by
  refine ⟨fun h => ?_, fun h => ?_, fun h1 h2 => ?_⟩
  · simp [execute_action, h]
  · simp [execute_action, h]
  · simp [execute_action, h1, h2]

/-- Witness for C2 at concrete inputs: an "Archive" suggestion succeeds, a
"Reply" suggestion stays pending, and an "Escalate" suggestion succeeds. -/
theorem C2_no_approval_dispatch_witness :
    (execute_action ⟨"e1", "s", "Archive", 1, "t"⟩ false "t").status =
      "success" ∧
    (execute_action ⟨"e2", "s", "Reply", 1, "t"⟩ false "t").status =
      "pending_approval" ∧
    (execute_action ⟨"e3", "s", "Escalate", 1, "t"⟩ false "t").status =
      "success" :=
  ⟨((C2_no_approval_dispatch ⟨"e1", "s", "Archive", 1, "t"⟩ "t").1
      (by decide)).1,
   ((C2_no_approval_dispatch ⟨"e2", "s", "Reply", 1, "t"⟩ "t").2.1
      (by decide)).1,
   ((C2_no_approval_dispatch ⟨"e3", "s", "Escalate", 1, "t"⟩ "t").2.2
      (by decide) (by decide)).1⟩

/-- Claim C3: when the collaborator returns text that json.loads cannot
decode, the summary is the raw text, the action "escalate" and the
confidence 1/2; when the collaborator raises, the confidence is 0, the
summary the explicit failure text "(summarization failed)" and the action
"escalate". summarize_and_suggest is a total function into SummaryResult,
so neither case propagates an exception. -/
theorem C3_summarizer_fallbacks (email : EmailMessage) (now : String) :
    (∀ text, summarize_and_suggest email (.returned text none) now =
      { email_id := email.id
        summary := text
        suggested_action := "escalate"
        confidence := 1/2
        timestamp := now }) ∧
    (∀ msg, summarize_and_suggest email (.raised msg) now =
      { email_id := email.id
        summary := "(summarization failed)"
        suggested_action := "escalate"
        confidence := 0
        timestamp := now }) :=
  ⟨fun _ => rfl, fun _ => rfl⟩

/-- Counterexample to claim C8: with requires_approval = true and suggested
action "Archive", the ActionResult's action field is the raw string
"Archive", not its lower-case normalization "archive". -/
theorem C8_counterexample :
    (execute_action ⟨"e1", "s", "Archive", 1, "t"⟩ true "t").action ≠
      (strLower "Archive") := by
  decide

/-- Claim C8 amended: the action field is the lower-cased suggested action
only when requires_approval is false; when requires_approval is true the
action field is the suggested action exactly as given, with no
normalization. -/
theorem C8_amended_action_normalization (s : SummaryResult) (now : String) :
    (execute_action s false now).action = strLower s.suggested_action ∧
    (execute_action s true now).action = s.suggested_action := by
  refine ⟨?_, rfl⟩
  by_cases h1 : strLower s.suggested_action = "archive"
  · simp [execute_action, h1]
  · by_cases h2 : strLower s.suggested_action = "reply"
    · simp [execute_action, h1, h2]
    · simp [execute_action, h1, h2]

/-- Deleting a key removes it from the listed keys. -/
lemma delete_not_mem_keys {α : Type} (bank : MemoryBank α) (key : String) :
    key ∉ (bank.delete key).list_keys := by
  intro h
  simp only [MemoryBank.delete, MemoryBank.list_keys, List.mem_map,
    List.mem_filter, bne_iff_ne, ne_eq] at h
  obtain ⟨kv, ⟨_, hne⟩, heq⟩ := h
  exact hne heq

/-- Claim C4: for a stored entry whose TTL is set (a truthy, i.e. nonzero,
ttl_seconds — zero is covered by the companion zero-TTL claim), retrieve at
an instant with elapsed time beyond the TTL deletes the entry, reports
absent, and the key is gone from list_keys; in every other case — TTL set
but not yet elapsed, or no TTL at all, regardless of elapsed time — retrieve
returns the stored value and leaves the bank unchanged. -/
theorem C4_ttl_lazy_expiry {α : Type} (bank : MemoryBank α) (key : String)
    (now : Int) (entry : MemoryEntry α)
    (hlook : bank.lookup key = some entry) :
    (∀ t, entry.ttl_seconds = some t → t ≠ 0 → now - entry.timestamp > t →
      (bank.retrieve key now).1 = none ∧
      (bank.retrieve key now).2 = bank.delete key ∧
      key ∉ (bank.retrieve key now).2.list_keys) ∧
    (∀ t, entry.ttl_seconds = some t → ¬(t ≠ 0 ∧ now - entry.timestamp > t) →
      bank.retrieve key now = (some entry.value, bank)) ∧
    (entry.ttl_seconds = none →
      bank.retrieve key now = (some entry.value, bank)) := by
  refine ⟨fun t ht htz hel => ?_, fun t ht hcond => ?_, fun ht => ?_⟩
  · have hret : bank.retrieve key now = (none, bank.delete key) := by
      simp [MemoryBank.retrieve, hlook, ttlTruthy, ht, htz, hel]
    refine ⟨by rw [hret], by rw [hret], ?_⟩
    rw [hret]
    exact delete_not_mem_keys bank key
  · by_cases htz : t = 0
    · simp [MemoryBank.retrieve, hlook, ttlTruthy, ht, htz]
    · have hel : ¬(now - entry.timestamp > t) := fun h => hcond ⟨htz, h⟩
      simp [MemoryBank.retrieve, hlook, ttlTruthy, ht, htz, hel]
  · simp [MemoryBank.retrieve, hlook, ttlTruthy, ht]

/-- Witness for C4 at concrete inputs: a key stored at time 0 with TTL 1 is
gone when read at time 5 (absent and no longer listed), and a key stored
with no TTL is still readable after a million seconds. -/
theorem C4_ttl_lazy_expiry_witness :
    ((((MemoryBank.mk ([] : List (String × MemoryEntry Nat))).store
        "k" 7 0 (some 1)).retrieve "k" 5).1 = none) ∧
    ("k" ∉ ((((MemoryBank.mk ([] : List (String × MemoryEntry Nat))).store
        "k" 7 0 (some 1)).retrieve "k" 5).2.list_keys)) ∧
    ((((MemoryBank.mk ([] : List (String × MemoryEntry Nat))).store
        "n" 8 0 none).retrieve "n" 1000000).1 = some 8) := by
  have h1 := (C4_ttl_lazy_expiry
    ((MemoryBank.mk ([] : List (String × MemoryEntry Nat))).store
      "k" 7 0 (some 1)) "k" 5 ⟨"k", 7, 0, some 1⟩ rfl).1 1 rfl
    (by decide) (by decide)
  have h2 := (C4_ttl_lazy_expiry
    ((MemoryBank.mk ([] : List (String × MemoryEntry Nat))).store
      "n" 8 0 none) "n" 1000000 ⟨"n", 8, 0, none⟩ rfl).2.2 rfl
  exact ⟨h1.1, h1.2.2, by rw [h2]⟩

/-- Claim C10: an entry stored with ttl_seconds = 0 is falsy under the
source's truthiness test, so retrieve skips the expiry check entirely: the
value is returned and the bank is untouched at every instant, exactly as for
an entry with no TTL. -/
theorem C10_zero_ttl_never_expires {α : Type} (bank : MemoryBank α)
    (key : String) (now : Int) (entry : MemoryEntry α)
    (hlook : bank.lookup key = some entry)
    (httl : entry.ttl_seconds = some 0) :
    bank.retrieve key now = (some entry.value, bank) := by
  simp [MemoryBank.retrieve, hlook, ttlTruthy, httl]

/-- Witness for C10: a key stored at time 0 with TTL 0 still retrieves its
value a million seconds later, with the bank unchanged. -/
theorem C10_zero_ttl_never_expires_witness :
    (((MemoryBank.mk ([] : List (String × MemoryEntry Nat))).store
        "k" 42 0 (some 0)).retrieve "k" 1000000) =
      (some 42,
       (MemoryBank.mk ([] : List (String × MemoryEntry Nat))).store
         "k" 42 0 (some 0)) :=
  C10_zero_ttl_never_expires _ "k" 1000000 ⟨"k", 42, 0, some 0⟩ rfl rfl

/-- Looking up the updated key after a key-preserving per-entry update finds
the originally found entry, transformed. -/
lemma find?_map_update_self (l : List (String × Session)) (sid : String)
    (f : Session → Session) :
    (l.map (fun kv => if kv.1 = sid then (kv.1, f kv.2) else kv)).find?
        (fun kv => kv.1 == sid) =
      (l.find? (fun kv => kv.1 == sid)).map (fun kv => (kv.1, f kv.2)) := by
  induction l with
  | nil => rfl
  | cons kv l ih =>
    by_cases hb : kv.1 = sid
    · have hb2 : (kv.1 == sid) = true := by simp [hb]
      simp only [List.map_cons, if_pos hb, List.find?_cons, hb2]
      rfl
    · have hb2 : (kv.1 == sid) = false := by simp [hb]
      simp only [List.map_cons, if_neg hb, List.find?_cons, hb2]
      exact ih

/-- A key-preserving update of the entries matching one key leaves lookups
of every other key unchanged. -/
lemma find?_map_update_other (l : List (String × Session)) (sid other : String)
    (hne : other ≠ sid) (f : Session → Session) :
    (l.map (fun kv => if kv.1 = sid then (kv.1, f kv.2) else kv)).find?
        (fun kv => kv.1 == other) =
      l.find? (fun kv => kv.1 == other) := by
  induction l with
  | nil => rfl
  | cons kv l ih =>
    by_cases hb : kv.1 = sid
    · have hso : sid ≠ other := fun h => hne h.symm
      have hbo : (kv.1 == other) = false := by simp [hb, hso]
      simp only [List.map_cons, if_pos hb, List.find?_cons, hbo]
      exact ih
    · simp only [List.map_cons, if_neg hb]
      by_cases hc : kv.1 = other
      · have hc2 : (kv.1 == other) = true := by simp [hc]
        simp only [List.find?_cons, hc2]
      · have hc2 : (kv.1 == other) = false := by simp [hc]
        simp only [List.find?_cons, hc2]
        exact ih

/-- Claim C9: add_message on an id with no session is a no-op — it does not
raise (the embedding is total), does not create the session, and changes
nothing; on an existing session it appends exactly the one message at the
end of that session's conversation, leaving created_at, last_activity and
metadata as they were, and leaves every other session untouched. -/
theorem C9_add_message_frame (svc : SessionService) (sid : String)
    (msg : ConversationMessage) :
    (svc.lookup sid = none → svc.add_message sid msg = svc) ∧
    (∀ s, svc.lookup sid = some s →
      (svc.add_message sid msg).lookup sid =
        some { s with conversation := s.conversation ++ [msg] } ∧
      ∀ other, other ≠ sid →
        (svc.add_message sid msg).lookup other = svc.lookup other) := by
  constructor
  · intro h
    unfold SessionService.add_message
    rw [h]
    simp
  · intro s hs
    have hguard : (svc.lookup sid).isSome = true := by rw [hs]; rfl
    have hadd : svc.add_message sid msg =
        { sessions := svc.sessions.map (fun kv =>
            if kv.1 = sid then (kv.1, appendMessage msg kv.2) else kv) } := by
      unfold SessionService.add_message
      rw [if_pos hguard]
    constructor
    · rw [hadd]
      simp only [SessionService.lookup]
      rw [find?_map_update_self svc.sessions sid (appendMessage msg)]
      simp only [SessionService.lookup] at hs
      cases hf : svc.sessions.find? (fun kv => kv.1 == sid) with
      | none => rw [hf] at hs; simp at hs
      | some kv =>
        rw [hf] at hs
        have hs2 : kv.2 = s := by simpa using hs
        show some (appendMessage msg kv.2) =
          some { s with conversation := s.conversation ++ [msg] }
        rw [hs2]
        rfl
    · intro other hno
      rw [hadd]
      simp only [SessionService.lookup]
      rw [find?_map_update_other svc.sessions sid other hno (appendMessage msg)]

/-- Witness for C9: on the empty service, add_message is a no-op; after
create_session, add_message appends the single message and keeps both
timestamps at their creation value. -/
theorem C9_add_message_frame_witness :
    ((SessionService.mk []).add_message "a" ⟨"user", "hi", "t1"⟩ =
      SessionService.mk []) ∧
    ((((SessionService.mk []).create_session "a" "t0").add_message "a"
        ⟨"user", "hi", "t1"⟩).lookup "a" =
      some { created_at := "t0", last_activity := "t0"
             conversation := [⟨"user", "hi", "t1"⟩], metadata := [] }) :=
  ⟨(C9_add_message_frame (SessionService.mk []) "a" ⟨"user", "hi", "t1"⟩).1 rfl,
   ((C9_add_message_frame ((SessionService.mk []).create_session "a" "t0")
      "a" ⟨"user", "hi", "t1"⟩).2 ⟨"t0", "t0", [], []⟩ rfl).1⟩

/-- Claim C5 fails on the code: record_response_time divides by the
total_emails_processed counter with no guard, so in the initial state of the
collector — every counter zero, reachable before any email is recorded — the
Python source raises ZeroDivisionError instead of completing. The embedding
returns that error explicitly at exactly this input. -/
theorem C5_record_response_time_zero_division :
    record_response_time initialMetrics 100 =
      Except.error "ZeroDivisionError: float division by zero" := rfl

/-- The evaluation loop, from any accumulator, adds the case-insensitive
match count to the first component and the matched-confidence mass to the
second. -/
lemma foldl_evalStep (tm : String → Option String) (l : List Prediction) :
    ∀ a : Nat × ℚ, l.foldl (evalStep tm) a =
      (a.1 + l.countP (matchHit tm), a.2 + matchedConfidenceSum tm l) := by
  induction l with
  | nil =>
    intro a
    simp [matchedConfidenceSum]
  | cons p l ih =>
    intro a
    rw [List.foldl_cons, ih]
    rcases h : tm p.email_id with _ | ta
    · have hmh : matchHit tm p = false := by simp [matchHit, h]
      have hstep : evalStep tm a p = a := by simp [evalStep, h]
      rw [hstep]
      simp [List.countP_cons, hmh, matchedConfidenceSum, List.filter_cons, h]
    · have hstep : evalStep tm a p =
          (if strLower p.action = strLower ta then a.1 + 1 else a.1,
           a.2 + p.confidence) := by
        simp [evalStep, h]
      have hsum : matchedConfidenceSum tm (p :: l) =
          p.confidence + matchedConfidenceSum tm l := by
        simp [matchedConfidenceSum, List.filter_cons, h]
      rw [hstep]
      by_cases hm : strLower p.action = strLower ta
      · have hmh : matchHit tm p = true := by simp [matchHit, h, hm]
        rw [if_pos hm]
        simp only [List.countP_cons, hmh, if_true, hsum, Prod.mk.injEq]
        constructor
        · omega
        · ring
      · have hmh : matchHit tm p = false := by simp [matchHit, h, hm]
        rw [if_neg hm]
        simp only [List.countP_cons, hmh, hsum, Prod.mk.injEq]
        constructor
        · simp
        · ring

/-- Claim C6: evaluate_actions computes accuracy as the number of
predictions whose action case-insensitively equals the ground-truth action
recorded for the same id, divided by the total number of predictions (the
denominator is the full prediction count, not the matched count), and
average confidence as the confidence mass of the id-matched predictions
alone, again divided by the total prediction count; with no predictions both
are 0. On the spec example — predictions (1, Archive) and (2, reply) with
confidences 9/10 and 4/5 against the single ground truth (1, archive) —
accuracy is 1/2 and average confidence 9/20. -/
theorem C6_evaluate_actions_spec (preds : List Prediction)
    (gts : List GroundTruthLabel) :
    (evaluate_actions preds gts).accuracy =
      (if preds.length = 0 then 0 else
        (preds.countP (matchHit (truth_map gts)) : ℚ) / (preds.length : ℚ)) ∧
    (evaluate_actions preds gts).avg_confidence =
      (if preds.length = 0 then 0 else
        matchedConfidenceSum (truth_map gts) preds / (preds.length : ℚ)) ∧
    (evaluate_actions [] gts).accuracy = 0 ∧
    (evaluate_actions [] gts).avg_confidence = 0 ∧
    (evaluate_actions
        [⟨"1", "s1", "Archive", 9/10⟩, ⟨"2", "s2", "reply", 4/5⟩]
        [⟨"1", "archive"⟩]).accuracy = 1/2 ∧
    (evaluate_actions
        [⟨"1", "s1", "Archive", 9/10⟩, ⟨"2", "s2", "reply", 4/5⟩]
        [⟨"1", "archive"⟩]).avg_confidence = 9/20 := by
  have hacc : ∀ (ps : List Prediction) (gs : List GroundTruthLabel),
      (evaluate_actions ps gs).accuracy =
        (if ps.length = 0 then 0 else
          (ps.countP (matchHit (truth_map gs)) : ℚ) / (ps.length : ℚ)) := by
    intro ps gs
    by_cases h : ps.length = 0
    · simp [evaluate_actions, h]
    · have hpos : 0 < ps.length := Nat.pos_of_ne_zero h
      have hloop : List.foldl (evalStep (truth_map gs)) 0 ps =
          (ps.countP (matchHit (truth_map gs)),
           matchedConfidenceSum (truth_map gs) ps) := by
        simpa using foldl_evalStep (truth_map gs) ps (0, 0)
      simp [evaluate_actions, hloop, h, hpos]
  have hconf : ∀ (ps : List Prediction) (gs : List GroundTruthLabel),
      (evaluate_actions ps gs).avg_confidence =
        (if ps.length = 0 then 0 else
          matchedConfidenceSum (truth_map gs) ps / (ps.length : ℚ)) := by
    intro ps gs
    by_cases h : ps.length = 0
    · simp [evaluate_actions, h]
    · have hpos : 0 < ps.length := Nat.pos_of_ne_zero h
      have hloop : List.foldl (evalStep (truth_map gs)) 0 ps =
          (ps.countP (matchHit (truth_map gs)),
           matchedConfidenceSum (truth_map gs) ps) := by
        simpa using foldl_evalStep (truth_map gs) ps (0, 0)
      simp [evaluate_actions, hloop, h, hpos]
  have hcount : ([⟨"1", "s1", "Archive", 9/10⟩,
      (⟨"2", "s2", "reply", 4/5⟩ : Prediction)].countP
        (matchHit (truth_map [⟨"1", "archive"⟩]))) = 1 := by decide
  have hmass : matchedConfidenceSum (truth_map [⟨"1", "archive"⟩])
      [⟨"1", "s1", "Archive", 9/10⟩, (⟨"2", "s2", "reply", 4/5⟩ : Prediction)]
        = 9/10 := by
    simp [matchedConfidenceSum, truth_map, List.filter_cons]
  refine ⟨hacc preds gts, hconf preds gts, ?_, ?_, ?_, ?_⟩
  · rw [hacc]
    simp
  · rw [hconf]
    simp
  · rw [hacc, hcount]
    norm_num
  · rw [hconf, hmass]
    norm_num

/-- Claim C7: for every batch, the report of process_inbox has one summary
and one action per fetched email, in fetch order: the summaries list is the
element-wise summarization of the fetched list and the actions list the
element-wise action on those summaries, so all three lengths agree; and when
the fetch yields no items (whether the collaborator returned an empty list
or raised), the report is empty with count zero for every choice of the
later-stage collaborators — the universal quantification over `llm2` and
`b2` expressing that the later stages are never consulted. -/
theorem C7_pipeline_alignment (fetchOutcome : Except String (List RawEmail))
    (llm : EmailMessage → LLMOutcome) (require_approval : Bool)
    (now : String) :
    (process_inbox fetchOutcome llm require_approval now).total_emails =
      (fetch_emails fetchOutcome).length ∧
    (process_inbox fetchOutcome llm require_approval now).summaries =
      (fetch_emails fetchOutcome).map
        (fun e => summarize_and_suggest e (llm e) now) ∧
    (process_inbox fetchOutcome llm require_approval now).actions =
      (fetch_emails fetchOutcome).map
        (fun e => execute_action (summarize_and_suggest e (llm e) now)
          require_approval now) ∧
    (process_inbox fetchOutcome llm require_approval now).summaries.length =
      (fetch_emails fetchOutcome).length ∧
    (process_inbox fetchOutcome llm require_approval now).actions.length =
      (fetch_emails fetchOutcome).length ∧
    (∀ llm2 b2, process_inbox (Except.ok []) llm2 b2 now =
      { total_emails := 0, summaries := [], actions := [],
        timestamp := now }) ∧
    (∀ msg llm2 b2, process_inbox (Except.error msg) llm2 b2 now =
      { total_emails := 0, summaries := [], actions := [],
        timestamp := now }) := by
  rcases hlist : fetch_emails fetchOutcome with _ | ⟨e, es⟩
  · exact ⟨by simp [process_inbox, hlist], by simp [process_inbox, hlist],
      by simp [process_inbox, hlist], by simp [process_inbox, hlist],
      by simp [process_inbox, hlist], fun llm2 b2 => rfl,
      fun msg llm2 b2 => rfl⟩
  · exact ⟨by simp [process_inbox, hlist], by simp [process_inbox, hlist],
      by simp [process_inbox, hlist, List.map_map, Function.comp],
      by simp [process_inbox, hlist], by simp [process_inbox, hlist],
      fun llm2 b2 => rfl, fun msg llm2 b2 => rfl⟩

end GmailAgent
